import Mathlib

/-!
Verification development for the AutoLens multi-plane ray-tracing core.

The Python sources are embedded shallowly over exact rationals:

* `src/src/analysis/ray_tracing.py` — namespace `RayTracing`
  (`Tracer`, `MultiTracer`, `TracerGeometry`, `Plane`, `intensities_via_grid`).
* `src/autolens/lens/plane.py` — namespace `LensPlane`
  (`check_plane_for_redshift`, `AbstractPlane`, `AbstractGriddedPlane`,
  `Plane`, `PlaneSlice`).
* `src/autolens/fit/fit_point_source.py` — namespace `FitPointSource`
  (`FitPositionsImage`, `FitFluxes`).

Machine floats are modelled as exact rationals, numpy arrays as lists, and a
grid bundle (`mask.CoordinateCollection` / `GridStack`, whose class is not part
of the sources; modelled from the spec as an ordered list of grid variants all
transformed identically) as a list of grids.  Python exceptions are modelled
with `Except`; Python list indexing — which wraps negative indices and raises
`IndexError` when the index is out of the wrapped range — is modelled by
`pythonGet`.
-/

/-- Exception kinds raised (or named by the spec) in the embedded code.
`geometryException` is never raised by the code; the constructor exists so the
spec's claim about it can be stated and compared with what the code raises. -/
inductive PyExc where
  | indexError : PyExc
  | attributeError : PyExc
  | geometryException : PyExc
  | rayTracingException : String → PyExc
  | pixelizationException : String → PyExc
  | pointSourceExtraction : String → PyExc
deriving DecidableEq, Repr

/-- Python list subscription `l[i]`: a negative index wraps around once
(`l[-1]` is the last element); an index outside `[-len(l), len(l))` raises
`IndexError`. -/
def pythonGet {α : Type} (l : List α) (i : ℤ) : Except PyExc α :=
  if i < -(l.length : ℤ) ∨ (l.length : ℤ) ≤ i then .error .indexError
  else
    match l.get? (if i < 0 then (i + l.length).toNat else i.toNat) with
    | some a => .ok a
    | none => .error .indexError

/-- A (y, x) arc-second coordinate or deflection vector. -/
abbrev Vec : Type := ℚ × ℚ

/-- One grid variant: a numpy array of coordinates, one row per pixel. -/
abbrev Grid : Type := List Vec

/-- Modelled from the spec: the grid-bundle class (`CoordinateCollection` /
`GridStack`) is not among the sources.  Per the spec it is the ordered list of
grid variants (image grid, sub-grid, blurring grid, ...), all transformed
identically; its `apply_function` maps a function over every variant and its
`map_function` combines corresponding variants of two bundles. -/
abbrev Collection : Type := List Grid

/-- Python `sum` of a list of equally-shaped numpy arrays (elementwise
addition, starting from `0` which broadcasts to the zero array of row count
`n`). -/
def sumLists {α : Type} [Add α] [Zero α] (n : ℕ) (ls : List (List α)) : List α :=
  ls.foldl (fun acc l => List.zipWith (· + ·) acc l) (List.replicate n 0)

/-- Element access into a grid bundle: variant `v`, row `i`. -/
def collAt (c : Collection) (v i : ℕ) : Vec :=
  (c.getD v []).getD i 0

/-- The shape of a grid bundle: the row count of every variant. -/
def collShape (c : Collection) : List ℕ :=
  c.map List.length

namespace RayTracing

/-- Modelled from the spec: the `Galaxy` class consumed by `ray_tracing.py` is
not among the sources.  Per the spec's galaxy capability interface it carries
a redshift, a mass-profile deflection field evaluated per coordinate, and an
optional light profile (a galaxy without a light profile contributes zero
intensity). -/
structure Galaxy where
  redshift : ℚ
  deflect : Vec → Vec
  lightProfile : Option (Vec → ℚ)

/-- Embedding of `galaxy.deflections_from_coordinate_grid(grid)`: the deflection field of
one galaxy evaluated at every coordinate of a grid. -/
def Galaxy.deflectionsFromCoordinateGrid (g : Galaxy) (grid : Grid) : Grid :=
  grid.map g.deflect

/-- Embedding of `galaxy.intensity_from_grid(grid)`: light-profile intensity at every
coordinate; zero everywhere for a galaxy without a light profile. -/
def Galaxy.intensityFromGrid (g : Galaxy) (grid : Grid) : List ℚ :=
  match g.lightProfile with
  | some f => grid.map f
  | none => grid.map (fun _ => 0)

/-- Embedding of `intensities_via_grid(coords_grid, galaxies)`: numpy `sum` of every
galaxy's intensity array over the given grid. -/
def intensities_via_grid (coordsGrid : Grid) (galaxies : List Galaxy) : List ℚ :=
  sumLists coordsGrid.length (galaxies.map (fun g => g.intensityFromGrid coordsGrid))

/-- The astropy cosmology consumed by `TracerGeometry`, as the spec's pure
functions of redshift (distances already converted to kpc values). -/
structure Cosmology where
  angularDiameterDistance : ℚ → ℚ
  angularDiameterDistanceZ1Z2 : ℚ → ℚ → ℚ
  arcsecPerKpcProper : ℚ → ℚ

/-- Embedding of `TracerGeometry.ang_to_earth(plane_i)` with an explicit redshift list:
`cosmology.angular_diameter_distance(self.redshifts[plane_i])`. -/
def angToEarthOf (cosmo : Cosmology) (redshifts : List ℚ) (i : ℤ) : Except PyExc ℚ :=
  (pythonGet redshifts i).map cosmo.angularDiameterDistance

/-- The state of a constructed `TracerGeometry`: the `__init__` caches
`final_plane = len(redshifts) - 1` and `ang_to_final_plane`. -/
structure TracerGeometry where
  cosmology : Cosmology
  redshifts : List ℚ
  finalPlane : ℤ
  angToFinalPlane : ℚ

/-- Embedding of `TracerGeometry.__init__`: stores the redshift list and cosmology and
computes `ang_to_final_plane = ang_to_earth(len(redshifts) - 1)`, which on an
empty redshift list evaluates `redshifts[-1]` and raises `IndexError`. -/
def tracerGeometryInit (redshifts : List ℚ) (cosmo : Cosmology) :
    Except PyExc TracerGeometry :=
  (angToEarthOf cosmo redshifts ((redshifts.length : ℤ) - 1)).map
    (fun d => ⟨cosmo, redshifts, (redshifts.length : ℤ) - 1, d⟩)

/-- Embedding of `TracerGeometry.ang_to_earth(plane_i)`. -/
def TracerGeometry.angToEarth (g : TracerGeometry) (i : ℤ) : Except PyExc ℚ :=
  angToEarthOf g.cosmology g.redshifts i

/-- Embedding of `TracerGeometry.ang_between_planes(plane_i, plane_j)`. -/
def TracerGeometry.angBetweenPlanes (g : TracerGeometry) (i j : ℤ) : Except PyExc ℚ := do
  let zi ← pythonGet g.redshifts i
  let zj ← pythonGet g.redshifts j
  pure (g.cosmology.angularDiameterDistanceZ1Z2 zi zj)

/-- Embedding of `TracerGeometry.critical_density_kpc(plane_i, plane_j)`; the physical
constant `c^2 / (4 pi G)` is irrational, so it is passed in as a parameter.
Subterms appear in Python evaluation order. -/
def TracerGeometry.criticalDensityKpc (g : TracerGeometry) (constantKpc : ℚ)
    (i j : ℤ) : Except PyExc ℚ := do
  let dj ← g.angToEarth j
  let dij ← g.angBetweenPlanes i j
  let di ← g.angToEarth i
  pure (constantKpc * dj / (dij * di))

/-- Embedding of `TracerGeometry.scaling_factor(plane_i, plane_j)`:
`(ang_between(i, j) * ang_to_final_plane) / (ang_to_earth(j) * ang_between(i, final))`. -/
def TracerGeometry.scalingFactor (g : TracerGeometry) (i j : ℤ) : Except PyExc ℚ := do
  let dij ← g.angBetweenPlanes i j
  let dj ← g.angToEarth j
  let dif ← g.angBetweenPlanes i g.finalPlane
  pure ((dij * g.angToFinalPlane) / (dj * dif))

/-- The value of `scaling_factor(i, j)` at in-range plane indices (the value
the `MultiTracer` loop consumes; `0` off the success path). -/
def TracerGeometry.scalingFactorVal (g : TracerGeometry) (i j : ℕ) : ℚ :=
  ((g.scalingFactor (i : ℤ) (j : ℤ)).toOption).getD 0

/-- The body of `calculate_deflections` in `Plane.__init__`:
`sum(map(lambda galaxy: galaxy.deflections_from_coordinate_grid(grid), galaxies))`. -/
def calculateDeflections (galaxies : List Galaxy) (grid : Grid) : Grid :=
  sumLists grid.length (galaxies.map (fun g => g.deflectionsFromCoordinateGrid grid))

/-- A `ray_tracing.Plane`.  The `deflections` attribute is only set when the
plane was constructed with `compute_deflections=True`; it is `none` otherwise
(reading it then would be a Python `AttributeError`). -/
structure Plane where
  galaxies : List Galaxy
  coordinatesCollection : Collection
  deflections : Option Collection

instance : Inhabited Plane := ⟨⟨[], [], none⟩⟩

/-- Embedding of `Plane.__init__`: stores the galaxies and the grid bundle, and when
`compute_deflections` holds applies `calculate_deflections` to every grid
variant. -/
def planeInit (galaxies : List Galaxy) (coordinatesCollection : Collection)
    (computeDeflections : Bool) : Plane :=
  { galaxies := galaxies
    coordinatesCollection := coordinatesCollection
    deflections :=
      if computeDeflections then
        some (coordinatesCollection.map (calculateDeflections galaxies))
      else none }

/-- Embedding of `Plane.trace_to_next_plane()`:
`self.coordinates_collection.map_function(np.subtract, self.deflections)`.
When the deflections were never computed the attribute read would raise; that
off-contract path is modelled as the empty bundle. -/
def Plane.traceToNextPlane (p : Plane) : Collection :=
  match p.deflections with
  | some d =>
      List.zipWith (fun grid defl => List.zipWith (· - ·) grid defl)
        p.coordinatesCollection d
  | none => []

/-- A two-plane `Tracer` (the `cosmology=None` default path, on which no
`TracerGeometry` is constructed; the geometry plays no part in the planes). -/
structure Tracer where
  imagePlane : Plane
  sourcePlane : Plane

/-- Embedding of `Tracer.__init__`: an image plane with deflections computed, traced once,
then a source plane with deflections not computed. -/
def tracerInit (lensGalaxies sourceGalaxies : List Galaxy)
    (imagePlaneGrids : Collection) : Tracer :=
  let imagePlane := planeInit lensGalaxies imagePlaneGrids true
  let sourcePlaneGrids := imagePlane.traceToNextPlane
  { imagePlane := imagePlane
    sourcePlane := planeInit sourceGalaxies sourcePlaneGrids false }

/-- Stable insertion of a galaxy into an already-sorted list: it goes after
every galaxy of smaller-or-equal redshift. -/
def insertSorted (g : Galaxy) : List Galaxy → List Galaxy
  | [] => [g]
  | b :: bs => if b.redshift ≤ g.redshift then b :: insertSorted g bs else g :: b :: bs

/-- Embedding of `sorted(galaxies, key=lambda galaxy: galaxy.redshift)`: Python's stable
ascending sort, modelled as a stable insertion sort. -/
def galaxiesRedshiftOrderOf (galaxies : List Galaxy) : List Galaxy :=
  galaxies.foldl (fun acc g => insertSorted g acc) []

/-- The comprehension
`[redshift for i, redshift in enumerate(galaxy_redshifts) if redshift not in galaxy_redshifts[:i]]`:
every redshift at its first occurrence, in order. -/
def firstOccurrences (zs : List ℚ) : List ℚ :=
  zs.foldl (fun acc z => if z ∈ acc then acc else acc ++ [z]) []

/-- One step of the `MultiTracer` propagation loop body for plane `k`:
rescale the deflections of the already-built plane `p` by
`scaling_factor(p, k)` and subtract them from the running grid bundle. -/
def newGridStep (geometry : TracerGeometry) (planes : List Plane) (k : ℕ)
    (g : Collection) (p : ℕ) : Except PyExc Collection := do
  let sf ← geometry.scalingFactor (p : ℤ) (k : ℤ)
  let prevPlane ← pythonGet planes (p : ℤ)
  let d ← match prevPlane.deflections with
    | some d => pure d
    | none => Except.error PyExc.attributeError
  let scaledDeflections := d.map (fun grid => grid.map (fun v => sf • v))
  pure (List.zipWith (fun grid sd => List.zipWith (· - ·) grid sd)
    g scaledDeflections)

/-- The full inner loop of `MultiTracer.__init__` for plane `k`:
`new_grid = image_plane_grids`, then for every `previous_plane_index < k`
subtract that plane's rescaled deflections. -/
def newGridFor (geometry : TracerGeometry) (planes : List Plane)
    (imagePlaneGrids : Collection) (k : ℕ) : Except PyExc Collection :=
  (List.range k).foldlM (newGridStep geometry planes k) imagePlaneGrids

/-- The outer loop of `MultiTracer.__init__` up to plane index `m` (excluded):
each plane gets `compute_deflections=True` except the final one (index
`n - 1`), its propagated grid bundle, and its redshift group of galaxies. -/
def buildPlanes (geometry : TracerGeometry) (planesGalaxies : List (List Galaxy))
    (n : ℕ) (imagePlaneGrids : Collection) : ℕ → Except PyExc (List Plane)
  | 0 => pure []
  | m + 1 => do
      let prior ← buildPlanes geometry planesGalaxies n imagePlaneGrids m
      let computeDeflections ←
        if m < n - 1 then pure true
        else if m = n - 1 then pure false
        else Except.error (PyExc.rayTracingException
          "A galaxy was not correctly allocated its previous / next redshifts")
      let newGrid ← newGridFor geometry prior imagePlaneGrids m
      let gals ← pythonGet planesGalaxies (m : ℤ)
      pure (prior ++ [planeInit gals newGrid computeDeflections])

/-- A constructed `MultiTracer`. -/
structure MultiTracer where
  galaxiesRedshiftOrder : List Galaxy
  planesRedshiftOrder : List ℚ
  geometry : TracerGeometry
  planesGalaxies : List (List Galaxy)
  planes : List Plane

/-- Embedding of `self.planes_redshift_order`: the distinct redshifts of the sorted
galaxies, each at its first occurrence. -/
def planesRedshiftOrderOf (galaxies : List Galaxy) : List ℚ :=
  firstOccurrences ((galaxiesRedshiftOrderOf galaxies).map (·.redshift))

/-- Embedding of `self.planes_galaxies`: per plane redshift, the sorted galaxies at exactly
that redshift (the source's map-to-`None`-and-`filter(None)` idiom). -/
def planesGalaxiesOf (galaxies : List Galaxy) : List (List Galaxy) :=
  (planesRedshiftOrderOf galaxies).map
    (fun z => (galaxiesRedshiftOrderOf galaxies).filter
      (fun g => decide (g.redshift = z)))

/-- Embedding of `MultiTracer.__init__`: sort the galaxies by redshift, list the distinct
plane redshifts in order, build the `TracerGeometry`, group the galaxies per
plane redshift, and run the plane-construction loop. -/
def multiTracerInit (galaxies : List Galaxy) (imagePlaneGrids : Collection)
    (cosmo : Cosmology) : Except PyExc MultiTracer := do
  let geometry ← tracerGeometryInit (planesRedshiftOrderOf galaxies) cosmo
  let planes ← buildPlanes geometry (planesGalaxiesOf galaxies)
    (planesRedshiftOrderOf galaxies).length imagePlaneGrids
    (planesRedshiftOrderOf galaxies).length
  pure { galaxiesRedshiftOrder := galaxiesRedshiftOrderOf galaxies
         planesRedshiftOrder := planesRedshiftOrderOf galaxies
         geometry := geometry
         planesGalaxies := planesGalaxiesOf galaxies
         planes := planes }

/-- The grid-bundle coordinate of plane `k` of a `MultiTracer`, at variant `v`,
row `i`. -/
def MultiTracer.planeGridAt (mt : MultiTracer) (k v i : ℕ) : Vec :=
  collAt ((mt.planes.getD k default).coordinatesCollection) v i

/-- The deflection vector of plane `p` of a `MultiTracer`, at variant `v`,
row `i`. -/
def MultiTracer.deflectionAt (mt : MultiTracer) (p v i : ℕ) : Vec :=
  collAt ((mt.planes.getD p default).deflections.getD []) v i

end RayTracing

namespace LensPlane

/-- Modelled from the spec: the `Galaxy` class consumed by
`autolens/lens/plane.py` is not among the sources.  Per the spec's galaxy
capability interface it carries an optional redshift, a mass-profile
deflection field, a mass-profile capability flag, and an optional Einstein
radius. -/
structure Galaxy where
  redshift : Option ℚ
  massDeflect : Vec → Vec
  hasMassProfile : Bool
  einsteinRadius : Option ℚ

instance : Inhabited Galaxy := ⟨⟨none, fun _ => 0, false, none⟩⟩

/-- Embedding of `galaxy.deflections_from_grid(grid)`. -/
def Galaxy.deflectionsFromGrid (g : Galaxy) (grid : Grid) : Grid :=
  grid.map g.massDeflect

/-- The astropy cosmology consumed by `AbstractPlane` (pure functions of
redshift, in the fixed unit conversions the source applies). -/
structure Cosmology where
  arcsecPerKpcProper : ℚ → ℚ
  angularDiameterDistance : ℚ → ℚ
  criticalDensity : ℚ → ℚ

/-- The state of an `AbstractPlane`. -/
structure AbstractPlane where
  redshift : Option ℚ
  galaxies : List Galaxy
  cosmology : Cosmology

/-- The `check_plane_for_redshift` decorator: when the plane's redshift is
`None` the wrapped property returns `None`; otherwise the property body runs
unchanged (with that redshift in scope). -/
def checkPlaneForRedshift {α : Type} (p : AbstractPlane) (func : ℚ → α) : Option α :=
  match p.redshift with
  | some z => some (func z)
  | none => none

/-- Embedding of `AbstractPlane.arcsec_per_kpc_proper`. -/
def AbstractPlane.arcsecPerKpcProper (p : AbstractPlane) : Option ℚ :=
  checkPlaneForRedshift p (fun z => p.cosmology.arcsecPerKpcProper z)

/-- Embedding of `AbstractPlane.kpc_per_arcsec_proper` (`1.0 / self.arcsec_per_kpc_proper`,
whose inner decorated read yields the raw value on the some-redshift path). -/
def AbstractPlane.kpcPerArcsecProper (p : AbstractPlane) : Option ℚ :=
  checkPlaneForRedshift p (fun z => 1 / p.cosmology.arcsecPerKpcProper z)

/-- Embedding of `AbstractPlane.angular_diameter_distance_to_earth`. -/
def AbstractPlane.angularDiameterDistanceToEarth (p : AbstractPlane) : Option ℚ :=
  checkPlaneForRedshift p (fun z => p.cosmology.angularDiameterDistance z)

/-- Embedding of `AbstractPlane.cosmic_average_mass_density_arcsec`:
`critical_density(z) / arcsec_per_kpc_proper ** 3`. -/
def AbstractPlane.cosmicAverageMassDensityArcsec (p : AbstractPlane) : Option ℚ :=
  checkPlaneForRedshift p
    (fun z => p.cosmology.criticalDensity z / (p.cosmology.arcsecPerKpcProper z) ^ (3 : ℕ))

/-- Embedding of `AbstractPlane.has_mass_profile`. -/
def AbstractPlane.hasMassProfile (p : AbstractPlane) : Bool :=
  p.galaxies.any (·.hasMassProfile)

/-- Embedding of `AbstractPlane.einstein_radius_arcsec`:
`sum(filter(None, [galaxy.einstein_radius for galaxy in galaxies]))` when the
plane has a mass profile (Python's `filter(None, ...)` drops the falsy values
`None` and `0.0`), and the implicit `None` otherwise. -/
def AbstractPlane.einsteinRadiusArcsec (p : AbstractPlane) : Option ℚ :=
  if p.hasMassProfile then
    some ((((p.galaxies.map (·.einsteinRadius)).filterMap id).filter
      (fun x => decide (x ≠ 0))).sum)
  else none

/-- The body of `AbstractPlane.einstein_radius_kpc` under its decorator:
`kpc_per_arcsec_proper * einstein_radius_arcsec` when the plane has a mass
profile, the implicit `None` otherwise (on the some-redshift path both inner
decorated reads yield their raw values). -/
def AbstractPlane.einsteinRadiusKpcBody (p : AbstractPlane) (z : ℚ) : Option ℚ :=
  if p.hasMassProfile then
    some ((1 / p.cosmology.arcsecPerKpcProper z) *
      ((((p.galaxies.map (·.einsteinRadius)).filterMap id).filter
        (fun x => decide (x ≠ 0))).sum))
  else none

/-- Embedding of `AbstractPlane.einstein_radius_kpc`: the decorator wraps a body that can
itself return `None`; Python returns the body's result directly. -/
def AbstractPlane.einsteinRadiusKpc (p : AbstractPlane) : Option ℚ :=
  match p.redshift with
  | some z => p.einsteinRadiusKpcBody z
  | none => none

/-- The state of an `AbstractGriddedPlane` (the `border` argument is opaque to
every claim and is omitted). -/
structure GriddedPlane where
  redshift : Option ℚ
  galaxies : List Galaxy
  cosmology : Cosmology
  gridStack : Collection
  deflectionStack : Option Collection

/-- Embedding of `AbstractGriddedPlane.__init__`: when `compute_deflections` holds, each
grid variant gets `sum(map(lambda galaxy: galaxy.deflections_from_grid(grid), galaxies))`
if the galaxy list is non-empty and `np.full((grid.shape[0], 2), 0.0)` (the
zero vector at every row) otherwise; else `deflection_stack = None`. -/
def abstractGriddedPlaneInit (redshift : Option ℚ) (galaxies : List Galaxy)
    (gridStack : Collection) (computeDeflections : Bool) (cosmology : Cosmology) :
    GriddedPlane :=
  { redshift := redshift
    galaxies := galaxies
    cosmology := cosmology
    gridStack := gridStack
    deflectionStack :=
      if computeDeflections then
        some (gridStack.map (fun grid =>
          if galaxies.isEmpty then List.replicate grid.length ((0 : ℚ), (0 : ℚ))
          else sumLists grid.length (galaxies.map (fun g => g.deflectionsFromGrid grid))))
      else none }

/-- Embedding of `AbstractGriddedPlane.trace_grid_stack_to_next_plane()`:
`self.grid_stack.map_function(minus, self.deflection_stack)`.  The
`deflection_stack = None` path (a numpy type error at runtime) is off every
claim and modelled as the empty bundle. -/
def GriddedPlane.traceGridStackToNextPlane (p : GriddedPlane) : Collection :=
  match p.deflectionStack with
  | some d =>
      List.zipWith (fun grid defl => List.zipWith (· - ·) grid defl) p.gridStack d
  | none => []

/-- Embedding of `Plane.__init__`: an empty galaxy list raises `RayTracingException`; mixed
or partially-absent redshifts (when any is present) raise
`RayTracingException`; otherwise the gridded-plane constructor runs with
`redshift = galaxies[0].redshift`. -/
def planeInit (galaxies : List Galaxy) (gridStack : Collection)
    (computeDeflections : Bool) (cosmology : Cosmology) :
    Except PyExc GriddedPlane :=
  match galaxies with
  | [] => .error (.rayTracingException "An empty list of galaxies was supplied to Plane")
  | g0 :: rest =>
      if ((g0 :: rest).map (·.redshift)).any (·.isSome) &&
          !((g0 :: rest).all (fun g => g0.redshift == g.redshift)) then
        .error (.rayTracingException
          "The galaxies supplied to A Plane have different redshifts or one galaxy does not have a redshift.")
      else
        .ok (abstractGriddedPlaneInit g0.redshift (g0 :: rest) gridStack
          computeDeflections cosmology)

/-- Embedding of `PlaneSlice.__init__`: passes its arguments straight to the gridded-plane
constructor, with no check on the galaxy list. -/
def planeSliceInit (galaxies : List Galaxy) (gridStack : Collection)
    (redshift : Option ℚ) (computeDeflections : Bool) (cosmology : Cosmology) :
    GriddedPlane :=
  abstractGriddedPlaneInit redshift galaxies gridStack computeDeflections cosmology

end LensPlane

namespace FitPointSource

/-- A point-source profile as consumed by `fit_point_source.py`: its Python
class name, its source-plane centre, and its flux when its class carries a
`flux` attribute. -/
structure PointSourceProfile where
  className : String
  centre : Vec
  flux : Option ℚ

/-- Modelled from the spec: the `Tracer` class that `FitFluxes` and
`FitPositionsImage` consume is not among the sources.  It is modelled as the
named point-source profiles in each plane, plus the external
magnification-via-Hessian computation as an opaque pure function. -/
structure Tracer where
  planes : List (List (String × PointSourceProfile))
  magnificationViaHessian : List Vec → List ℚ

/-- Modelled from the spec: `Tracer.extract_profile(profile_name)` is not
among the sources.  Per the spec it returns the point-source profile with the
requested name in any plane of the tracer, or `None` when no plane holds a
matching one. -/
def Tracer.extractProfile (t : Tracer) (name : String) : Option PointSourceProfile :=
  ((t.planes.flatten).find? (fun pr => pr.1 == name)).map (·.2)

/-- The message of the no-matching-profile `PointSourceExtractionException`. -/
def noProfileMsg (name : String) : String :=
  "For the point-source named " ++
    (name ++
      " there was no matching point source profile in the tracer (make sure your tracer's point source name is the same the dataset name.")

/-- The message of the profile-without-flux `PointSourceExtractionException`. -/
def noFluxMsg (name className : String) : String :=
  "For the point-source named " ++
    (name ++
      (" the extracted point source was the class " ++
        (className ++ " and therefore does not contain a flux component.")))

/-- A constructed `FitFluxes`. -/
structure FitFluxes where
  name : String
  positions : List Vec
  magnifications : List ℚ
  data : List ℚ
  noiseMap : List ℚ
  modelData : List ℚ

/-- Embedding of `FitFluxes.__init__`: no matching profile raises
`PointSourceExtractionException`; a matching profile whose class has no `flux`
attribute raises the same exception with its distinguishing message; otherwise
each position's magnification times the profile flux gives the model fluxes. -/
def fitFluxesInit (name : String) (fluxes : List ℚ) (noiseMap : List ℚ)
    (positions : List Vec) (tracer : Tracer) : Except PyExc FitFluxes :=
  match tracer.extractProfile name with
  | none => .error (.pointSourceExtraction (noProfileMsg name))
  | some prof =>
      match prof.flux with
      | none => .error (.pointSourceExtraction (noFluxMsg name prof.className))
      | some fluxVal =>
          let magnifications := (tracer.magnificationViaHessian positions).map
            (fun m => |m|)
          .ok { name := name
                positions := positions
                magnifications := magnifications
                data := fluxes
                noiseMap := noiseMap
                modelData := magnifications.map (fun m => m * fluxVal) }

/-- The squared distance between two coordinates. -/
def distSq (a b : Vec) : ℚ :=
  (a.1 - b.1) ^ (2 : ℕ) + (a.2 - b.2) ^ (2 : ℕ)

/-- Modelled from the spec: `grid_of_closest_from_grid_pair` is not among the
sources.  Per the spec it pairs each observed position with its nearest model
counterpart. -/
def gridOfClosest (modelPositions : List Vec) (observed : List Vec) : List Vec :=
  observed.map (fun o =>
    (modelPositions.foldl
      (fun best m => if distSq m o < distSq best o then m else best)
      (modelPositions.headD 0)))

/-- A constructed `FitPositionsImage`. -/
structure FitPositionsImage where
  name : String
  data : List Vec
  noiseMap : List ℚ
  modelData : List Vec

/-- Embedding of `FitPositionsImage.__init__`: no matching profile raises
`PointSourceExtractionException`; otherwise the external positions solver is
run at the profile centre (modelled as an opaque pure function) and each
observed position is paired with its closest solved position. -/
def fitPositionsImageInit (name : String) (positions : List Vec)
    (noiseMap : List ℚ) (tracer : Tracer) (solve : Vec → List Vec) :
    Except PyExc FitPositionsImage :=
  match tracer.extractProfile name with
  | none => .error (.pointSourceExtraction (noProfileMsg name))
  | some prof =>
      .ok { name := name
            data := positions
            noiseMap := noiseMap
            modelData := gridOfClosest (solve prof.centre) positions }

/-- The message of a raised exception contains a given string verbatim. -/
def msgContains (msg sub : String) : Prop :=
  ∃ s1 s2, msg = s1 ++ (sub ++ s2)

end FitPointSource

instance : Inhabited RayTracing.Cosmology :=
  ⟨⟨fun _ => 0, fun _ _ => 0, fun _ => 0⟩⟩

instance : Inhabited RayTracing.TracerGeometry :=
  ⟨⟨default, [], 0, 0⟩⟩

instance : Inhabited RayTracing.MultiTracer :=
  ⟨⟨[], [], default, [], []⟩⟩

/-- A concrete cosmology on which distances evaluate exactly: the distance to
redshift `z` is `z` and the distance between `z1` and `z2` is `z2 - z1`. -/
def exCosmo : RayTracing.Cosmology :=
  ⟨id, fun a b => b - a, id⟩

/-- A redshift-1 galaxy whose deflection field is the identity. -/
def exGalaxyA : RayTracing.Galaxy := ⟨1, fun c => c, none⟩

/-- A redshift-2 galaxy with the constant deflection field `(1, 0)`. -/
def exGalaxyB : RayTracing.Galaxy := ⟨2, fun _ => ((1 : ℚ), (0 : ℚ)), none⟩

/-- A redshift-3 galaxy with no deflection. -/
def exGalaxyC : RayTracing.Galaxy := ⟨3, fun _ => ((0 : ℚ), (0 : ℚ)), none⟩

/-- Three galaxies on three distinct redshift planes. -/
def exGalaxies : List RayTracing.Galaxy := [exGalaxyA, exGalaxyB, exGalaxyC]

/-- A one-variant, two-coordinate input grid bundle. -/
def exImg : Collection := [[((4 : ℚ), (8 : ℚ)), ((2 : ℚ), (2 : ℚ))]]

/-- The three-plane `MultiTracer` built from `exGalaxies` on `exImg`. -/
def mtEx : RayTracing.MultiTracer :=
  match RayTracing.multiTracerInit exGalaxies exImg exCosmo with
  | .ok mt => mt
  | .error _ => default

/-- The two-plane `TracerGeometry` that `tracerGeometryInit [1, 2] exCosmo`
constructs. -/
def geomEx : RayTracing.TracerGeometry := ⟨exCosmo, [1, 2], 1, 2⟩

/-- A concrete cosmology for the `autolens` plane embedding. -/
def exCosmoL : LensPlane.Cosmology := ⟨fun z => z + 1, id, id⟩

/-- A redshift-1 galaxy with a mass profile of Einstein radius 3. -/
def exGalaxyL : LensPlane.Galaxy := ⟨some 1, fun c => c, true, some (3 : ℚ)⟩

/-- An abstract plane whose redshift is present. -/
def exPlaneSome : LensPlane.AbstractPlane := ⟨some 1, [exGalaxyL], exCosmoL⟩

/-- An abstract plane whose redshift is absent. -/
def exPlaneNone : LensPlane.AbstractPlane := ⟨none, [exGalaxyL], exCosmoL⟩

/-- A tracer holding no point-source profile at all. -/
def exTracerNoProfile : FitPointSource.Tracer := ⟨[], fun _ => []⟩

/-- A point-source profile whose class carries no `flux` attribute. -/
def exProfileNoFlux : FitPointSource.PointSourceProfile := ⟨"PointSource", (0, 0), none⟩

/-- A point-source profile with flux 2. -/
def exProfileFlux : FitPointSource.PointSourceProfile := ⟨"PointSourceFlux", (0, 0), some 2⟩

/-- A tracer whose only profile, named `a`, has no flux attribute. -/
def exTracerNoFlux : FitPointSource.Tracer := ⟨[[("a", exProfileNoFlux)]], fun _ => []⟩

/-- A tracer whose only profile, named `a`, carries a flux. -/
def exTracerFlux : FitPointSource.Tracer := ⟨[[("a", exProfileFlux)]], fun _ => []⟩

/-- Element access through `zipWith` at an in-range row. -/
theorem getD_zipWith {α β γ : Type} (f : α → β → γ) (a : List α) (b : List β)
    (i : ℕ) (da : α) (db : β) (dc : γ) (ha : i < a.length) (hb : i < b.length) :
    (List.zipWith f a b).getD i dc = f (a.getD i da) (b.getD i db) := by
  have hz : i < (List.zipWith f a b).length := by
    rw [List.length_zipWith]; exact lt_min ha hb
  rw [List.getD_eq_getElem _ _ hz, List.getD_eq_getElem _ _ ha,
    List.getD_eq_getElem _ _ hb, List.getElem_zipWith]

/-- Element access through `map` at an in-range row. -/
theorem getD_map {α β : Type} (f : α → β) (a : List α) (i : ℕ) (da : α) (db : β)
    (h : i < a.length) :
    (a.map f).getD i db = f (a.getD i da) := by
  have hm : i < (a.map f).length := by simpa using h
  rw [List.getD_eq_getElem _ _ hm, List.getD_eq_getElem _ _ h, List.getElem_map]

/-- Element access into `replicate` at an in-range row. -/
theorem getD_replicate {α : Type} (x d : α) (n i : ℕ) (h : i < n) :
    (List.replicate n x).getD i d = x := by
  have hr : i < (List.replicate n x).length := by simpa using h
  rw [List.getD_eq_getElem _ _ hr, List.getElem_replicate]

/-- The elementwise-addition fold over equal-length lists keeps the length. -/
theorem foldl_zipWith_add_length {α : Type} [Add α] (acc : List α)
    (ls : List (List α)) (n : ℕ) (hacc : acc.length = n)
    (hls : ∀ l ∈ ls, l.length = n) :
    (ls.foldl (fun a l => List.zipWith (· + ·) a l) acc).length = n := by
  induction ls generalizing acc with
  | nil => simpa using hacc
  | cons l ls ih =>
      simp only [List.foldl_cons]
      refine ih _ ?_ (fun l' hl' => hls l' (by simp [hl']))
      rw [List.length_zipWith, hacc, hls l (by simp)]
      exact min_self n

/-- The `sumLists` of equal-length lists has that length. -/
theorem sumLists_length {α : Type} [Add α] [Zero α] (n : ℕ) (ls : List (List α))
    (hls : ∀ l ∈ ls, l.length = n) : (sumLists n ls).length = n :=
  foldl_zipWith_add_length _ _ _ (List.length_replicate _ _) hls

/-- Rows of the elementwise-addition fold are the accumulated row plus the sum
of the corresponding rows. -/
theorem foldl_zipWith_add_getD {α : Type} [AddMonoid α] (acc : List α)
    (ls : List (List α)) (n i : ℕ) (hacc : acc.length = n)
    (hls : ∀ l ∈ ls, l.length = n) (hi : i < n) :
    (ls.foldl (fun a l => List.zipWith (· + ·) a l) acc).getD i 0
      = acc.getD i 0 + (ls.map (fun l => l.getD i 0)).sum := by
  induction ls generalizing acc with
  | nil => simp
  | cons l ls ih =>
      simp only [List.foldl_cons, List.map_cons, List.sum_cons]
      rw [ih _ (by rw [List.length_zipWith, hacc, hls l (by simp)]; exact min_self n)
          (fun l' hl' => hls l' (by simp [hl'])),
        getD_zipWith (· + ·) acc l i 0 0 0 (by omega)
          (by rw [hls l (by simp)]; exact hi),
        add_assoc]

/-- Rows of `sumLists` are the sums of the corresponding rows. -/
theorem sumLists_getD {α : Type} [AddMonoid α] (n : ℕ) (ls : List (List α))
    (i : ℕ) (hls : ∀ l ∈ ls, l.length = n) (hi : i < n) :
    (sumLists n ls).getD i 0 = (ls.map (fun l => l.getD i 0)).sum := by
  unfold sumLists
  rw [foldl_zipWith_add_getD _ _ n i (List.length_replicate _ _) hls hi,
    getD_replicate _ _ _ _ hi, zero_add]

/-- Python indexing at an in-range non-negative index returns that element. -/
theorem pythonGet_nat_ok {α : Type} (l : List α) (i : ℕ) (d : α)
    (h : i < l.length) : pythonGet l (i : ℤ) = .ok (l.getD i d) := by
  unfold pythonGet
  have hcond : ¬ ((i : ℤ) < -(l.length : ℤ) ∨ (l.length : ℤ) ≤ (i : ℤ)) := by
    push_neg
    omega
  rw [if_neg hcond, if_neg (by omega : ¬ ((i : ℤ) < 0)), Int.toNat_natCast,
    List.get?_eq_getElem?, List.getElem?_eq_getElem h, List.getD_eq_getElem _ _ h]

/-- Python indexing outside `[-len(l), len(l))` raises `IndexError`. -/
theorem pythonGet_oob {α : Type} (l : List α) (i : ℤ)
    (h : i < -(l.length : ℤ) ∨ (l.length : ℤ) ≤ i) :
    pythonGet l i = .error .indexError := by
  unfold pythonGet
  rw [if_pos h]

/-- String append acts on the underlying character lists. -/
theorem string_data_append (s t : String) : (s ++ t).data = s.data ++ t.data := rfl

/-- A `Finset.range` sum is the sum of the mapped `List.range`. -/
theorem sum_finset_range_eq_list {α : Type} [AddCommMonoid α] (n : ℕ) (f : ℕ → α) :
    ∑ p ∈ Finset.range n, f p = ((List.range n).map f).sum := rfl

/-- The deflection array of a `ray_tracing.Plane` grid variant has the grid's
row count. -/
theorem RayTracing.calculateDeflections_length (galaxies : List RayTracing.Galaxy)
    (grid : Grid) : (RayTracing.calculateDeflections galaxies grid).length = grid.length := by
  unfold RayTracing.calculateDeflections
  refine sumLists_length _ _ (fun l hl => ?_)
  obtain ⟨g, _, rfl⟩ := List.mem_map.mp hl
  simp [RayTracing.Galaxy.deflectionsFromCoordinateGrid]

/-- A row of the deflection array of a `ray_tracing.Plane` grid variant is the
sum of the galaxies' deflections at that coordinate. -/
theorem RayTracing.calculateDeflections_getD (galaxies : List RayTracing.Galaxy)
    (grid : Grid) (i : ℕ) (hi : i < grid.length) :
    (RayTracing.calculateDeflections galaxies grid).getD i 0
      = (galaxies.map (fun g => g.deflect (grid.getD i 0))).sum := by
  unfold RayTracing.calculateDeflections
  rw [sumLists_getD _ _ i
    (fun l hl => by
      obtain ⟨g, _, rfl⟩ := List.mem_map.mp hl
      simp [RayTracing.Galaxy.deflectionsFromCoordinateGrid]) hi]
  rw [List.map_map]
  refine congrArg List.sum (List.map_congr_left (fun g _ => ?_))
  simp only [Function.comp_apply, RayTracing.Galaxy.deflectionsFromCoordinateGrid]
  exact getD_map g.deflect grid i 0 0 hi

/-- The deflection array an `AbstractGriddedPlane` computes for one grid
variant has the grid's row count. -/
theorem LensPlane.deflectionsVariant_length (galaxies : List LensPlane.Galaxy)
    (grid : Grid) :
    (if galaxies.isEmpty then List.replicate grid.length ((0 : ℚ), (0 : ℚ))
      else sumLists grid.length
        (galaxies.map (fun g => g.deflectionsFromGrid grid))).length
      = grid.length := by
  by_cases h : galaxies.isEmpty
  · simp [h]
  · rw [if_neg h]
    refine sumLists_length _ _ (fun l hl => ?_)
    obtain ⟨g, _, rfl⟩ := List.mem_map.mp hl
    simp [LensPlane.Galaxy.deflectionsFromGrid]

/-- A row of the deflection array an `AbstractGriddedPlane` computes is the
sum of the galaxies' deflections at that coordinate (zero when there are no
galaxies). -/
theorem LensPlane.deflectionsVariant_getD (galaxies : List LensPlane.Galaxy)
    (grid : Grid) (i : ℕ) (hi : i < grid.length) :
    (if galaxies.isEmpty then List.replicate grid.length ((0 : ℚ), (0 : ℚ))
      else sumLists grid.length
        (galaxies.map (fun g => g.deflectionsFromGrid grid))).getD i 0
      = (galaxies.map (fun g => g.massDeflect (grid.getD i 0))).sum := by
  by_cases h : galaxies.isEmpty
  · rw [if_pos h, List.isEmpty_iff.mp h]
    exact (getD_replicate _ _ _ _ hi).trans (by simp)
  · rw [if_neg h]
    rw [sumLists_getD _ _ i
      (fun l hl => by
        obtain ⟨g, _, rfl⟩ := List.mem_map.mp hl
        simp [LensPlane.Galaxy.deflectionsFromGrid]) hi]
    rw [List.map_map]
    refine congrArg List.sum (List.map_congr_left (fun g _ => ?_))
    simp only [Function.comp_apply, LensPlane.Galaxy.deflectionsFromGrid]
    exact getD_map g.massDeflect grid i 0 0 hi

/-- C2. Constructing an `autolens` `Plane` with an empty galaxy list always
fails with a `RayTracingException`, for every grid bundle,
`compute_deflections` flag and cosmology; it never succeeds and so never
yields a zero-deflection plane. -/
theorem plane_empty_galaxies_raises :
    ∀ (gridStack : Collection) (computeDeflections : Bool)
      (cosmology : LensPlane.Cosmology),
      LensPlane.planeInit [] gridStack computeDeflections cosmology
        = .error (.rayTracingException
            "An empty list of galaxies was supplied to Plane") :=
  fun _ _ _ => rfl

/-- C10. Constructing a `PlaneSlice` with an empty galaxy list and
`compute_deflections=True` succeeds and yields the all-zero deflection field
on every grid variant, while the `Plane` constructor is the only place the
empty-galaxy rejection lives. -/
theorem plane_slice_empty_galaxies_zero_deflections :
    ∀ (gridStack : Collection) (redshift : Option ℚ)
      (cosmology : LensPlane.Cosmology),
      (LensPlane.planeSliceInit [] gridStack redshift true cosmology).deflectionStack
        = some (gridStack.map
            (fun grid => List.replicate grid.length ((0 : ℚ), (0 : ℚ))))
      ∧ ∀ computeDeflections : Bool, ∃ e,
          LensPlane.planeInit [] gridStack computeDeflections cosmology = .error e :=
  fun _ _ _ => ⟨rfl, fun _ => ⟨_, rfl⟩⟩

/-- C9. Aggregated light is a superposition: `intensities_via_grid` over the
concatenation of two galaxy lists is the elementwise sum of the two
aggregates, on every grid. -/
theorem aggregate_light_superposition :
    ∀ (grid : Grid) (A B : List RayTracing.Galaxy),
      RayTracing.intensities_via_grid grid (A ++ B)
        = List.zipWith (· + ·) (RayTracing.intensities_via_grid grid A)
            (RayTracing.intensities_via_grid grid B) := by
  intro grid A B
  have hlen : ∀ gs : List RayTracing.Galaxy,
      (RayTracing.intensities_via_grid grid gs).length = grid.length := by
    intro gs
    unfold RayTracing.intensities_via_grid
    refine sumLists_length _ _ (fun l hl => ?_)
    obtain ⟨g, _, rfl⟩ := List.mem_map.mp hl
    cases h : g.lightProfile <;> simp [RayTracing.Galaxy.intensityFromGrid, h]
  have hrow : ∀ (gs : List RayTracing.Galaxy) (i : ℕ), i < grid.length →
      (RayTracing.intensities_via_grid grid gs).getD i 0
        = (gs.map (fun g => (g.intensityFromGrid grid).getD i 0)).sum := by
    intro gs i hi
    unfold RayTracing.intensities_via_grid
    rw [sumLists_getD _ _ i
      (fun l hl => by
        obtain ⟨g, _, rfl⟩ := List.mem_map.mp hl
        cases h : g.lightProfile <;> simp [RayTracing.Galaxy.intensityFromGrid, h]) hi]
    rw [List.map_map]
    rfl
  refine List.ext_getElem ?_ ?_
  · rw [hlen, List.length_zipWith, hlen, hlen, min_self]
  · intro i h1 h2
    have hi : i < grid.length := by rw [hlen] at h1; exact h1
    rw [← List.getD_eq_getElem _ 0 h1, ← List.getD_eq_getElem _ 0 h2,
      getD_zipWith (· + ·) _ _ i 0 0 0 (by rw [hlen]; exact hi) (by rw [hlen]; exact hi),
      hrow _ _ hi, hrow _ _ hi, hrow _ _ hi, List.map_append, List.sum_append]

/-- C7. When a plane's redshift is absent every cosmology-dependent derived
quantity returns `none`; when it is present the underlying computation runs
unchanged on that redshift. -/
theorem absent_redshift_returns_none :
    ∀ p : LensPlane.AbstractPlane,
      (p.redshift = none →
        p.arcsecPerKpcProper = none
        ∧ p.angularDiameterDistanceToEarth = none
        ∧ p.cosmicAverageMassDensityArcsec = none
        ∧ p.einsteinRadiusKpc = none)
      ∧ ∀ z : ℚ, p.redshift = some z →
          p.arcsecPerKpcProper = some (p.cosmology.arcsecPerKpcProper z)
          ∧ p.angularDiameterDistanceToEarth
              = some (p.cosmology.angularDiameterDistance z)
          ∧ p.cosmicAverageMassDensityArcsec
              = some (p.cosmology.criticalDensity z
                  / (p.cosmology.arcsecPerKpcProper z) ^ (3 : ℕ))
          ∧ p.einsteinRadiusKpc = p.einsteinRadiusKpcBody z := by
  intro p
  constructor
  · intro h
    refine ⟨?_, ?_, ?_, ?_⟩ <;>
      simp [LensPlane.AbstractPlane.arcsecPerKpcProper,
        LensPlane.AbstractPlane.angularDiameterDistanceToEarth,
        LensPlane.AbstractPlane.cosmicAverageMassDensityArcsec,
        LensPlane.AbstractPlane.einsteinRadiusKpc,
        LensPlane.checkPlaneForRedshift, h]
  · intro z h
    refine ⟨?_, ?_, ?_, ?_⟩ <;>
      simp [LensPlane.AbstractPlane.arcsecPerKpcProper,
        LensPlane.AbstractPlane.angularDiameterDistanceToEarth,
        LensPlane.AbstractPlane.cosmicAverageMassDensityArcsec,
        LensPlane.AbstractPlane.einsteinRadiusKpc,
        LensPlane.checkPlaneForRedshift, h]

/-- Witness for C7 at a plane without and a plane with a redshift. -/
theorem absent_redshift_returns_none_witness :
    (exPlaneNone.arcsecPerKpcProper = none
      ∧ exPlaneNone.angularDiameterDistanceToEarth = none
      ∧ exPlaneNone.cosmicAverageMassDensityArcsec = none
      ∧ exPlaneNone.einsteinRadiusKpc = none)
    ∧ exPlaneSome.arcsecPerKpcProper
        = some (exPlaneSome.cosmology.arcsecPerKpcProper 1) :=
  ⟨(absent_redshift_returns_none exPlaneNone).1 rfl,
   ((absent_redshift_returns_none exPlaneSome).2 1 rfl).1⟩

/-- C4. For every two-plane `TracerGeometry` over distinct redshifts with
nonzero angular-diameter distances, `scaling_factor(0, 1)` is exactly `1`. -/
theorem two_plane_scaling_factor_eq_one :
    ∀ (cosmo : RayTracing.Cosmology) (z0 z1 : ℚ) (geom : RayTracing.TracerGeometry),
      RayTracing.tracerGeometryInit [z0, z1] cosmo = .ok geom →
      z0 ≠ z1 →
      cosmo.angularDiameterDistance z0 ≠ 0 →
      cosmo.angularDiameterDistance z1 ≠ 0 →
      cosmo.angularDiameterDistanceZ1Z2 z0 z1 ≠ 0 →
      geom.scalingFactor 0 1 = .ok 1 := by
  intro cosmo z0 z1 geom hinit hzz h0 h1 h01
  have hval : RayTracing.tracerGeometryInit [z0, z1] cosmo
      = .ok ⟨cosmo, [z0, z1], 1, cosmo.angularDiameterDistance z1⟩ := rfl
  rw [hval] at hinit
  have hg := (Except.ok.inj hinit).symm
  subst hg
  have hcalc : RayTracing.TracerGeometry.scalingFactor
      ⟨cosmo, [z0, z1], 1, cosmo.angularDiameterDistance z1⟩ 0 1
      = .ok ((cosmo.angularDiameterDistanceZ1Z2 z0 z1
              * cosmo.angularDiameterDistance z1)
          / (cosmo.angularDiameterDistance z1
              * cosmo.angularDiameterDistanceZ1Z2 z0 z1)) := rfl
  rw [hcalc]
  congr 1
  rw [mul_comm (cosmo.angularDiameterDistance z1)]
  exact div_self (mul_ne_zero h01 h1)

/-- Witness for C4 at the concrete two-plane geometry `geomEx`. -/
theorem two_plane_scaling_factor_eq_one_witness :
    geomEx.scalingFactor 0 1 = .ok 1 :=
  two_plane_scaling_factor_eq_one exCosmo 1 2 geomEx rfl (by norm_num)
    (by norm_num [exCosmo]) (by norm_num [exCosmo]) (by norm_num [exCosmo])

/-- Counterexample for C3: on the two-plane geometry built from `[1, 2]`, the
out-of-range request `ang_to_earth(5)` raises `IndexError` — not a
`GeometryException` — and the request `ang_to_earth(-1)`, though `-1` lies
outside `[0, n)`, succeeds by Python's wrap-around indexing. -/
theorem tracer_geometry_exception_counterexample :
    ((RayTracing.tracerGeometryInit [(1 : ℚ), 2] exCosmo).bind
        (fun g => g.angToEarth 5) = .error PyExc.indexError)
    ∧ ((RayTracing.tracerGeometryInit [(1 : ℚ), 2] exCosmo).bind
        (fun g => g.angToEarth (-1)) = .ok 2)
    ∧ PyExc.indexError ≠ PyExc.geometryException :=
  ⟨rfl, rfl, by decide⟩

/-- C3 as amended. Constructing a `TracerGeometry` on an empty redshift list
fails with `IndexError` (so no request can ever be made on such a geometry);
requesting an angular-diameter distance, a critical surface density, or a
scaling factor whose first-evaluated plane index lies outside Python's index
range `[-n, n)` fails with `IndexError`, not a `GeometryException`. -/
theorem tracer_geometry_out_of_range_index_error :
    (∀ cosmo : RayTracing.Cosmology,
      RayTracing.tracerGeometryInit [] cosmo = .error PyExc.indexError)
    ∧ (∀ (g : RayTracing.TracerGeometry) (i j : ℤ),
        (i < -(g.redshifts.length : ℤ) ∨ (g.redshifts.length : ℤ) ≤ i) →
        g.angToEarth i = .error PyExc.indexError
        ∧ g.angBetweenPlanes i j = .error PyExc.indexError
        ∧ g.scalingFactor i j = .error PyExc.indexError)
    ∧ (∀ (g : RayTracing.TracerGeometry) (c : ℚ) (i j : ℤ),
        (j < -(g.redshifts.length : ℤ) ∨ (g.redshifts.length : ℤ) ≤ j) →
        g.criticalDensityKpc c i j = .error PyExc.indexError) := by
  refine ⟨fun cosmo => rfl, ?_, ?_⟩
  · intro g i j hoob
    have hpg : pythonGet g.redshifts i = .error .indexError :=
      pythonGet_oob _ _ hoob
    refine ⟨?_, ?_, ?_⟩
    · unfold RayTracing.TracerGeometry.angToEarth RayTracing.angToEarthOf
      rw [hpg]
      rfl
    · unfold RayTracing.TracerGeometry.angBetweenPlanes
      rw [hpg]
      rfl
    · unfold RayTracing.TracerGeometry.scalingFactor
        RayTracing.TracerGeometry.angBetweenPlanes
      rw [hpg]
      rfl
  · intro g c i j hoob
    have hpg : pythonGet g.redshifts j = .error .indexError :=
      pythonGet_oob _ _ hoob
    unfold RayTracing.TracerGeometry.criticalDensityKpc
      RayTracing.TracerGeometry.angToEarth RayTracing.angToEarthOf
    rw [hpg]
    rfl

/-- Witness for the amended C3 at concrete out-of-range requests. -/
theorem tracer_geometry_out_of_range_index_error_witness :
    RayTracing.tracerGeometryInit [] exCosmo = .error PyExc.indexError
    ∧ geomEx.angToEarth 5 = .error PyExc.indexError
    ∧ geomEx.scalingFactor 5 0 = .error PyExc.indexError
    ∧ geomEx.criticalDensityKpc 1 0 5 = .error PyExc.indexError :=
  ⟨tracer_geometry_out_of_range_index_error.1 exCosmo,
   (tracer_geometry_out_of_range_index_error.2.1 geomEx 5 0 (by decide)).1,
   (tracer_geometry_out_of_range_index_error.2.1 geomEx 5 0 (by decide)).2.2,
   tracer_geometry_out_of_range_index_error.2.2 geomEx 1 0 5 (by decide)⟩

/-- C6. For a plane constructed with deflections computed (in both the
`ray_tracing` and the `autolens` embedding), tracing to the next plane
subtracts, at every grid variant and coordinate, the summed galaxy deflection
vector from the coordinate, while the stored grid bundle is the input bundle
unchanged. -/
theorem trace_to_next_plane_subtracts_deflections :
    ∀ (galaxies : List RayTracing.Galaxy) (grids : Collection) (v i : ℕ),
      v < grids.length → i < (grids.getD v []).length →
      (collAt (RayTracing.Plane.traceToNextPlane
            (RayTracing.planeInit galaxies grids true)) v i
          = collAt grids v i
            - (galaxies.map (fun g => g.deflect (collAt grids v i))).sum
        ∧ (RayTracing.planeInit galaxies grids true).coordinatesCollection = grids)
      ∧ ∀ (redshift : Option ℚ) (lgal : List LensPlane.Galaxy)
          (cosmo : LensPlane.Cosmology),
          collAt (LensPlane.GriddedPlane.traceGridStackToNextPlane
              (LensPlane.abstractGriddedPlaneInit redshift lgal grids true cosmo)) v i
            = collAt grids v i
              - (lgal.map (fun g => g.massDeflect (collAt grids v i))).sum
          ∧ (LensPlane.abstractGriddedPlaneInit redshift lgal grids true
              cosmo).gridStack = grids := by
  intro galaxies grids v i hv hi
  constructor
  · constructor
    · show collAt (List.zipWith _ grids (grids.map
          (RayTracing.calculateDeflections galaxies))) v i = _
      unfold collAt
      rw [getD_zipWith _ grids _ v [] [] [] hv (by simpa using hv),
        getD_map _ grids v [] [] hv,
        getD_zipWith (· - ·) _ _ i 0 0 0 hi
          (by rw [RayTracing.calculateDeflections_length]; exact hi),
        RayTracing.calculateDeflections_getD _ _ i hi]
    · rfl
  · intro redshift lgal cosmo
    constructor
    · show collAt (List.zipWith _ grids (grids.map _)) v i = _
      unfold collAt
      rw [getD_zipWith _ grids _ v [] [] [] hv (by simpa using hv),
        getD_map _ grids v [] [] hv,
        getD_zipWith (· - ·) _ _ i 0 0 0 hi
          (by rw [LensPlane.deflectionsVariant_length]; exact hi),
        LensPlane.deflectionsVariant_getD _ _ i hi]
    · rfl

/-- Witness for C6 at a one-galaxy plane on a one-variant grid. -/
theorem trace_to_next_plane_subtracts_deflections_witness :
    (collAt (RayTracing.Plane.traceToNextPlane
          (RayTracing.planeInit [exGalaxyA] exImg true)) 0 0
        = collAt exImg 0 0
          - ([exGalaxyA].map (fun g => g.deflect (collAt exImg 0 0))).sum
      ∧ (RayTracing.planeInit [exGalaxyA] exImg true).coordinatesCollection = exImg)
    ∧ ∀ (redshift : Option ℚ) (lgal : List LensPlane.Galaxy)
        (cosmo : LensPlane.Cosmology),
        collAt (LensPlane.GriddedPlane.traceGridStackToNextPlane
            (LensPlane.abstractGriddedPlaneInit redshift lgal exImg true cosmo)) 0 0
          = collAt exImg 0 0
            - (lgal.map (fun g => g.massDeflect (collAt exImg 0 0))).sum
        ∧ (LensPlane.abstractGriddedPlaneInit redshift lgal exImg true
            cosmo).gridStack = exImg :=
  trace_to_next_plane_subtracts_deflections [exGalaxyA] exImg 0 0
    (by decide) (by decide)

set_option maxRecDepth 8192 in
/-- The two `PointSourceExtractionException` messages differ, whatever the
requested name and extracted class are. -/
theorem noFluxMsg_ne_noProfileMsg (name cls : String) :
    FitPointSource.noFluxMsg name cls ≠ FitPointSource.noProfileMsg name := by
  intro h
  have hd := congrArg String.data h
  rw [FitPointSource.noFluxMsg, FitPointSource.noProfileMsg] at hd
  simp only [string_data_append] at hd
  have h2 := List.append_cancel_left (List.append_cancel_left hd)
  have h4 := congrArg (fun l => l[4]?) h2
  simp only [List.getElem?_append] at h4
  rw [if_pos (by decide)] at h4
  exact absurd h4 (by decide)

/-- C8. `FitFluxes` (and `FitPositionsImage`) construction fails with a
`PointSourceExtractionException` whose message contains the requested name
exactly when no matching point-source profile exists in any plane of the
tracer; a matching profile without a flux attribute makes `FitFluxes` fail
with the same exception kind and a distinguishing message; otherwise
construction succeeds. -/
theorem fit_point_source_extraction_errors :
    ∀ (tracer : FitPointSource.Tracer) (name : String) (fluxes noiseMap : List ℚ)
      (positions : List Vec) (solve : Vec → List Vec),
      (tracer.extractProfile name = none →
        (∃ m, FitPointSource.fitFluxesInit name fluxes noiseMap positions tracer
            = .error (.pointSourceExtraction m) ∧ FitPointSource.msgContains m name)
        ∧ (∃ m, FitPointSource.fitPositionsImageInit name positions noiseMap
              tracer solve
            = .error (.pointSourceExtraction m) ∧ FitPointSource.msgContains m name))
      ∧ (∀ prof : FitPointSource.PointSourceProfile,
          tracer.extractProfile name = some prof → prof.flux = none →
          FitPointSource.fitFluxesInit name fluxes noiseMap positions tracer
            = .error (.pointSourceExtraction
                (FitPointSource.noFluxMsg name prof.className))
          ∧ FitPointSource.noFluxMsg name prof.className
              ≠ FitPointSource.noProfileMsg name)
      ∧ (∀ (prof : FitPointSource.PointSourceProfile) (fluxVal : ℚ),
          tracer.extractProfile name = some prof → prof.flux = some fluxVal →
          ∃ r, FitPointSource.fitFluxesInit name fluxes noiseMap positions tracer
            = .ok r)
      ∧ (∀ prof : FitPointSource.PointSourceProfile,
          tracer.extractProfile name = some prof →
          ∃ r, FitPointSource.fitPositionsImageInit name positions noiseMap
              tracer solve = .ok r) := by
  intro tracer name fluxes noiseMap positions solve
  refine ⟨?_, ?_, ?_, ?_⟩
  · intro h
    refine ⟨⟨FitPointSource.noProfileMsg name, ?_,
        "For the point-source named ",
        " there was no matching point source profile in the tracer (make sure your tracer's point source name is the same the dataset name.",
        rfl⟩,
      ⟨FitPointSource.noProfileMsg name, ?_,
        "For the point-source named ",
        " there was no matching point source profile in the tracer (make sure your tracer's point source name is the same the dataset name.",
        rfl⟩⟩
    · simp [FitPointSource.fitFluxesInit, h]
    · simp [FitPointSource.fitPositionsImageInit, h]
  · intro prof hp hf
    exact ⟨by simp [FitPointSource.fitFluxesInit, hp, hf],
      noFluxMsg_ne_noProfileMsg name prof.className⟩
  · intro prof fluxVal hp hf
    obtain ⟨cn, ce, cf⟩ := prof
    dsimp only at hf
    subst hf
    exact ⟨{ name := name, positions := positions,
             magnifications := (tracer.magnificationViaHessian positions).map
               (fun m => |m|),
             data := fluxes, noiseMap := noiseMap,
             modelData := ((tracer.magnificationViaHessian positions).map
               (fun m => |m|)).map (fun m => m * fluxVal) },
      by unfold FitPointSource.fitFluxesInit; rw [hp]⟩
  · intro prof hp
    exact ⟨{ name := name, data := positions, noiseMap := noiseMap,
             modelData := FitPointSource.gridOfClosest (solve prof.centre) positions },
      by unfold FitPointSource.fitPositionsImageInit; rw [hp]⟩

/-- Witness for C8 at a tracer without the profile, one whose profile lacks a
flux, and one whose profile carries a flux. -/
theorem fit_point_source_extraction_errors_witness :
    (∃ m, FitPointSource.fitFluxesInit "a" [] [] [] exTracerNoProfile
        = .error (.pointSourceExtraction m) ∧ FitPointSource.msgContains m "a")
    ∧ FitPointSource.fitFluxesInit "a" [] [] [] exTracerNoFlux
        = .error (.pointSourceExtraction
            (FitPointSource.noFluxMsg "a" exProfileNoFlux.className))
    ∧ ∃ r, FitPointSource.fitFluxesInit "a" [] [] [] exTracerFlux = .ok r :=
  ⟨((fit_point_source_extraction_errors exTracerNoProfile "a" [] [] []
      (fun _ => [])).1 rfl).1,
   ((fit_point_source_extraction_errors exTracerNoFlux "a" [] [] []
      (fun _ => [])).2.1 exProfileNoFlux rfl rfl).1,
   (fit_point_source_extraction_errors exTracerFlux "a" [] [] []
      (fun _ => [])).2.2.1 exProfileFlux 2 rfl rfl⟩

/-- Bind on a successful `Except` value runs the continuation. -/
theorem except_bind_ok {ε α β : Type} (a : α) (f : α → Except ε β) :
    (Except.ok (ε := ε) a >>= f) = f a := rfl

/-- Bind on a failed `Except` value propagates the error. -/
theorem except_bind_error {ε α β : Type} (e : ε) (f : α → Except ε β) :
    ((Except.error e : Except ε α) >>= f) = .error e := rfl

/-- Map on a successful `Except` value. -/
theorem except_map_ok {ε α β : Type} (f : α → β) (a : α) :
    (Except.ok a : Except ε α).map f = .ok (f a) := rfl

/-- Map on a failed `Except` value. -/
theorem except_map_error {ε α β : Type} (f : α → β) (e : ε) :
    (Except.error e : Except ε α).map f = .error e := rfl

/-- Bundles of equal shape have equally many variants. -/
theorem collShape_length_eq {a b : Collection} (h : collShape a = collShape b) :
    a.length = b.length := by
  have h2 := congrArg List.length h
  simpa [collShape] using h2

/-- Bundles of equal shape have rows of equal count in every variant. -/
theorem collShape_row_eq {a b : Collection} (h : collShape a = collShape b)
    (v : ℕ) (hv : v < a.length) :
    (a.getD v []).length = (b.getD v []).length := by
  have hb : v < b.length := by rw [← collShape_length_eq h]; exact hv
  have h1 := congrArg (fun l => l.getD v 0) h
  simp only [collShape] at h1
  rw [getD_map List.length a v [] 0 hv, getD_map List.length b v [] 0 hb] at h1
  exact h1

/-- Subtracting an equal-shaped bundle keeps the shape. -/
theorem collShape_zipWithSub (a b : Collection) (h : collShape b = collShape a) :
    collShape (List.zipWith (fun grid defl => List.zipWith (· - ·) grid defl) a b)
      = collShape a := by
  have hb : b.length = a.length := collShape_length_eq h
  refine List.ext_getElem ?_ ?_
  · simp [collShape, List.length_zipWith, hb]
  · intro v h1 h2
    simp only [collShape, List.getElem_map, List.getElem_zipWith,
      List.length_zipWith]
    have hv : v < a.length := by
      simpa [collShape] using h2
    have hvb : v < b.length := by rw [hb]; exact hv
    have hrow : (b.getD v []).length = (a.getD v []).length :=
      collShape_row_eq h v hvb
    rw [List.getD_eq_getElem _ _ hvb, List.getD_eq_getElem _ _ hv] at hrow
    rw [hrow, min_self]

/-- Rescaling every row of every variant keeps the shape. -/
theorem collShape_smulMap (d : Collection) (f : Vec → Vec) :
    collShape (d.map (fun grid => grid.map f)) = collShape d := by
  simp only [collShape, List.map_map]
  exact List.map_congr_left (fun grid _ => by simp)

/-- The deflection bundle of a `ray_tracing.Plane` has its grid bundle's
shape. -/
theorem RayTracing.planeDeflections_shape (gals : List RayTracing.Galaxy)
    (grids : Collection) :
    collShape (grids.map (RayTracing.calculateDeflections gals))
      = collShape grids := by
  simp only [collShape, List.map_map]
  exact List.map_congr_left (fun grid _ => by
    simp [RayTracing.calculateDeflections_length])

/-- Coordinates of a bundle subtraction are coordinate differences. -/
theorem collAt_zipWithSub (a b : Collection) (v i : ℕ) (hv : v < a.length)
    (hi : i < (a.getD v []).length) (h : collShape b = collShape a) :
    collAt (List.zipWith (fun grid defl => List.zipWith (· - ·) grid defl) a b) v i
      = collAt a v i - collAt b v i := by
  have hvb : v < b.length := by rw [collShape_length_eq h]; exact hv
  have hrow : (b.getD v []).length = (a.getD v []).length :=
    collShape_row_eq h v hvb
  unfold collAt
  rw [getD_zipWith _ a b v [] [] [] hv hvb,
    getD_zipWith (· - ·) _ _ i 0 0 0 hi (by rw [hrow]; exact hi)]

/-- Coordinates of a rescaled bundle are rescaled coordinates. -/
theorem collAt_smulMap (d : Collection) (c : ℚ) (v i : ℕ) (hv : v < d.length)
    (hi : i < (d.getD v []).length) :
    collAt (d.map (fun grid => grid.map (fun x => c • x))) v i
      = c • collAt d v i := by
  unfold collAt
  rw [getD_map _ d v [] [] hv, getD_map _ _ i 0 0 hi]

/-- Element access at the end of an appended singleton. -/
theorem getD_append_length {α : Type} (l : List α) (x d : α) :
    (l ++ [x]).getD l.length d = x := by
  induction l with
  | nil => rfl
  | cons a l ih => simp [ih]

/-- The method `scaling_factor(i, j)` at in-range plane indices evaluates without error
to the formula's value. -/
theorem RayTracing.scalingFactor_nat_ok (g : RayTracing.TracerGeometry)
    (n p k : ℕ) (hlen : g.redshifts.length = n)
    (hfp : g.finalPlane = (n : ℤ) - 1) (hn : 1 ≤ n) (hp : p < n) (hk : k < n) :
    g.scalingFactor (p : ℤ) (k : ℤ)
      = .ok ((g.cosmology.angularDiameterDistanceZ1Z2 (g.redshifts.getD p 0)
              (g.redshifts.getD k 0) * g.angToFinalPlane)
          / (g.cosmology.angularDiameterDistance (g.redshifts.getD k 0)
            * g.cosmology.angularDiameterDistanceZ1Z2 (g.redshifts.getD p 0)
              (g.redshifts.getD (n - 1) 0))) := by
  have hfp2 : g.finalPlane = ((n - 1 : ℕ) : ℤ) := by omega
  unfold RayTracing.TracerGeometry.scalingFactor
    RayTracing.TracerGeometry.angBetweenPlanes RayTracing.TracerGeometry.angToEarth
    RayTracing.angToEarthOf
  rw [hfp2, pythonGet_nat_ok g.redshifts p 0 (by omega),
    pythonGet_nat_ok g.redshifts k 0 (by omega),
    pythonGet_nat_ok g.redshifts (n - 1) 0 (by omega)]
  rfl

/-- The `Except`-valued `scaling_factor` agrees with `scalingFactorVal` at
in-range plane indices. -/
theorem RayTracing.scalingFactor_eq_val (g : RayTracing.TracerGeometry)
    (n p k : ℕ) (hlen : g.redshifts.length = n)
    (hfp : g.finalPlane = (n : ℤ) - 1) (hn : 1 ≤ n) (hp : p < n) (hk : k < n) :
    g.scalingFactor (p : ℤ) (k : ℤ) = .ok (g.scalingFactorVal p k) := by
  have h := RayTracing.scalingFactor_nat_ok g n p k hlen hfp hn hp hk
  rw [h]
  unfold RayTracing.TracerGeometry.scalingFactorVal
  rw [h]
  rfl

/-- One step of the multi-plane propagation loop evaluates without error and
subtracts the rescaled deflections of the earlier plane. -/
theorem RayTracing.newGridStep_ok (geom : RayTracing.TracerGeometry)
    (planes : List RayTracing.Plane) (n k p : ℕ) (acc d : Collection)
    (hlen : geom.redshifts.length = n) (hfp : geom.finalPlane = (n : ℤ) - 1)
    (hn : 1 ≤ n) (hk : k < n) (hp : p < n) (hpl : p < planes.length)
    (hd : (planes.getD p default).deflections = some d) :
    RayTracing.newGridStep geom planes k acc p
      = .ok (List.zipWith (fun grid sd => List.zipWith (· - ·) grid sd) acc
          (d.map (fun grid => grid.map
            (fun x => geom.scalingFactorVal p k • x)))) := by
  unfold RayTracing.newGridStep
  rw [RayTracing.scalingFactor_eq_val geom n p k hlen hfp hn hp hk,
    pythonGet_nat_ok planes p default hpl]
  simp only [except_bind_ok, hd]
  rfl

/-- The full propagation loop for plane `k` evaluates without error; its
result bundle keeps the input shape and every coordinate is the accumulated
coordinate minus the sum of the rescaled deflections of the listed planes. -/
theorem RayTracing.newGridLoop_ok (geom : RayTracing.TracerGeometry)
    (planes : List RayTracing.Plane) (n k : ℕ) (img : Collection)
    (hlen : geom.redshifts.length = n) (hfp : geom.finalPlane = (n : ℤ) - 1)
    (hn : 1 ≤ n) (hk : k < n) :
    ∀ (ps : List ℕ) (acc : Collection),
      collShape acc = collShape img →
      (∀ p ∈ ps, p < n ∧ p < planes.length ∧
        ∃ d, (planes.getD p default).deflections = some d
          ∧ collShape d = collShape img) →
      ∃ gNew, ps.foldlM (RayTracing.newGridStep geom planes k) acc = .ok gNew
        ∧ collShape gNew = collShape img
        ∧ ∀ v i, v < img.length → i < (img.getD v []).length →
            collAt gNew v i = collAt acc v i
              - ((ps.map (fun p => geom.scalingFactorVal p k
                  • collAt ((planes.getD p default).deflections.getD []) v i)).sum) := by
  intro ps
  induction ps with
  | nil =>
      intro acc hacc _
      exact ⟨acc, rfl, hacc, fun v i _ _ => by simp⟩
  | cons p ps ih =>
      intro acc hacc hps
      obtain ⟨hpn, hpl, d, hd, hds⟩ := hps p (by simp)
      have hstep := RayTracing.newGridStep_ok geom planes n k p acc d
        hlen hfp hn hk hpn hpl hd
      set scaled := d.map (fun grid => grid.map
        (fun x => geom.scalingFactorVal p k • x)) with hscaled
      set acc2 := List.zipWith (fun grid sd => List.zipWith (· - ·) grid sd)
        acc scaled with hacc2def
      have hshape_scaled : collShape scaled = collShape acc := by
        rw [hscaled, collShape_smulMap, hds, ← hacc]
      have hacc2 : collShape acc2 = collShape img := by
        rw [hacc2def, collShape_zipWithSub _ _ hshape_scaled, hacc]
      obtain ⟨gNew, hfold, hshape, hpoint⟩ :=
        ih acc2 hacc2 (fun q hq => hps q (by simp [hq]))
      refine ⟨gNew, ?_, hshape, ?_⟩
      · rw [List.foldlM_cons, hstep, except_bind_ok, hfold]
      · intro v i hv hi
        have hvacc : v < acc.length := by
          rw [collShape_length_eq hacc]; exact hv
        have hiacc : i < (acc.getD v []).length := by
          rw [collShape_row_eq hacc v hvacc]; exact hi
        have hvd : v < d.length := by
          rw [collShape_length_eq hds]; exact hv
        have hid : i < (d.getD v []).length := by
          rw [collShape_row_eq hds v hvd]; exact hi
        rw [hpoint v i hv hi, hacc2def,
          collAt_zipWithSub acc scaled v i hvacc hiacc hshape_scaled,
          hscaled, collAt_smulMap d _ v i hvd hid,
          List.map_cons, List.sum_cons, hd]
        simp only [Option.getD_some]
        rw [sub_sub]

/-- The plane-construction loop of `MultiTracer.__init__` evaluates without
error up to any index `m ≤ n`, producing planes whose deflections are
computed exactly below the final index and whose grid bundle is the input
bundle minus the cumulative rescaled deflections of all prior planes. -/
theorem RayTracing.buildPlanes_ok (geom : RayTracing.TracerGeometry)
    (pg : List (List RayTracing.Galaxy)) (n : ℕ) (img : Collection)
    (hlen : geom.redshifts.length = n) (hfp : geom.finalPlane = (n : ℤ) - 1)
    (hn : 1 ≤ n) (hpg : pg.length = n) :
    ∀ m, m ≤ n →
      ∃ planes, RayTracing.buildPlanes geom pg n img m = .ok planes
        ∧ planes.length = m
        ∧ ∀ k, k < m →
            ((planes.getD k default).deflections.isSome = decide (k < n - 1))
            ∧ (k < n - 1 →
                ∃ d, (planes.getD k default).deflections = some d
                  ∧ collShape d = collShape img)
            ∧ collShape (planes.getD k default).coordinatesCollection
                = collShape img
            ∧ ∀ v i, v < img.length → i < (img.getD v []).length →
                collAt (planes.getD k default).coordinatesCollection v i
                  = collAt img v i
                    - ((List.range k).map (fun p =>
                        geom.scalingFactorVal p k
                          • collAt ((planes.getD p default).deflections.getD [])
                              v i)).sum := by
  intro m
  induction m with
  | zero =>
      intro _
      exact ⟨[], rfl, rfl, fun k hk => absurd hk (Nat.not_lt_zero k)⟩
  | succ m ih =>
      intro hm
      obtain ⟨planes, hbp, hplen, hprops⟩ := ih (by omega)
      obtain ⟨gNew, hloop, hgshape, hgpoint⟩ :=
        RayTracing.newGridLoop_ok geom planes n m img hlen hfp hn (by omega)
          (List.range m) img rfl
          (fun p hp => by
            have hpm : p < m := List.mem_range.mp hp
            refine ⟨by omega, by omega, ?_⟩
            exact (hprops p (by omega)).2.1 (by omega))
      have hgals : pythonGet pg (m : ℤ) = .ok (pg.getD m []) :=
        pythonGet_nat_ok pg m [] (by omega)
      refine ⟨planes ++ [RayTracing.planeInit (pg.getD m []) gNew
          (decide (m < n - 1))], ?_, by simp [hplen], ?_⟩
      · have hdef : RayTracing.buildPlanes geom pg n img (m + 1) = (do
            let prior ← RayTracing.buildPlanes geom pg n img m
            let computeDeflections ←
              if m < n - 1 then pure true
              else if m = n - 1 then pure false
              else Except.error (PyExc.rayTracingException
                "A galaxy was not correctly allocated its previous / next redshifts")
            let newGrid ← RayTracing.newGridFor geom prior img m
            let gals ← pythonGet pg (m : ℤ)
            pure (prior ++ [RayTracing.planeInit gals newGrid computeDeflections])) :=
          rfl
        rw [hdef]
        unfold RayTracing.newGridFor
        simp only [hbp, except_bind_ok, hloop, hgals]
        by_cases hm1 : m < n - 1
        · rw [if_pos hm1, decide_eq_true hm1]
          rfl
        · have hm2 : m = n - 1 := by omega
          rw [if_neg hm1, if_pos hm2, decide_eq_false hm1]
          rfl
      · intro k hk
        by_cases hkm : k < m
        · have hgetk : ∀ q, q < m →
              (planes ++ [RayTracing.planeInit (pg.getD m []) gNew
                (decide (m < n - 1))]).getD q default = planes.getD q default :=
            fun q hq => List.getD_append _ _ _ _ (by omega)
          obtain ⟨h1, h2, h3, h4⟩ := hprops k hkm
          refine ⟨?_, ?_, ?_, ?_⟩
          · rw [hgetk k hkm]
            exact h1
          · intro hkn
            obtain ⟨d, hd, hds⟩ := h2 hkn
            exact ⟨d, by rw [hgetk k hkm]; exact hd, hds⟩
          · rw [hgetk k hkm]
            exact h3
          · intro v i hv hi
            rw [hgetk k hkm, h4 v i hv hi]
            refine congrArg (fun s => collAt img v i - s) ?_
            refine congrArg List.sum (List.map_congr_left (fun p hp => ?_))
            rw [hgetk p (by have := List.mem_range.mp hp; omega)]
        · have hkm2 : k = m := by omega
          subst hkm2
          have hgetk : (planes ++ [RayTracing.planeInit (pg.getD k []) gNew
              (decide (k < n - 1))]).getD k default
              = RayTracing.planeInit (pg.getD k []) gNew (decide (k < n - 1)) := by
            rw [← hplen]
            exact getD_append_length planes _ default
          refine ⟨?_, ?_, ?_, ?_⟩
          · rw [hgetk]
            by_cases hkn : k < n - 1 <;> simp [RayTracing.planeInit, hkn]
          · intro hkn
            refine ⟨gNew.map (RayTracing.calculateDeflections (pg.getD k [])),
              ?_, ?_⟩
            · rw [hgetk]
              simp [RayTracing.planeInit, hkn]
            · rw [RayTracing.planeDeflections_shape]
              exact hgshape
          · rw [hgetk]
            exact hgshape
          · intro v i hv hi
            rw [hgetk]
            have hbase := hgpoint v i hv hi
            refine hbase.trans ?_
            refine congrArg (fun s => collAt img v i - s) ?_
            refine congrArg List.sum (List.map_congr_left (fun p hp => ?_))
            rw [List.getD_append _ _ _ _
              (by have := List.mem_range.mp hp; omega)]

/-- A successfully constructed `TracerGeometry` stores its redshift list, its
final-plane index, and exists only for a non-empty redshift list. -/
theorem RayTracing.tracerGeometryInit_ok_props (zs : List ℚ)
    (cosmo : RayTracing.Cosmology) (geom : RayTracing.TracerGeometry)
    (h : RayTracing.tracerGeometryInit zs cosmo = .ok geom) :
    geom.redshifts = zs ∧ geom.finalPlane = (zs.length : ℤ) - 1
      ∧ 1 ≤ zs.length := by
  unfold RayTracing.tracerGeometryInit RayTracing.angToEarthOf at h
  cases hpg : pythonGet zs ((zs.length : ℤ) - 1) with
  | error e =>
      rw [hpg, except_map_error, except_map_error] at h
      exact Except.noConfusion h
  | ok z =>
      rw [hpg, except_map_ok, except_map_ok] at h
      have hrec := Except.ok.inj h
      have hlen : 1 ≤ zs.length := by
        by_contra hc
        have hz0 : zs = [] := List.eq_nil_of_length_eq_zero (by omega)
        rw [hz0] at hpg
        have hempty : pythonGet ([] : List ℚ)
            (((List.length ([] : List ℚ)) : ℤ) - 1) = .error PyExc.indexError := rfl
        rw [hempty] at hpg
        exact Except.noConfusion hpg
      exact ⟨by rw [← hrec], by rw [← hrec], hlen⟩

/-- A successfully constructed `MultiTracer` has at least one plane; its plane
`k` has deflections computed exactly when `k` is not the final index, and its
plane `k`'s grid bundle is the input bundle minus the cumulative rescaled
deflections of all prior planes. -/
theorem RayTracing.multiTracerInit_ok_props (galaxies : List RayTracing.Galaxy)
    (img : Collection) (cosmo : RayTracing.Cosmology)
    (mt : RayTracing.MultiTracer)
    (h : RayTracing.multiTracerInit galaxies img cosmo = .ok mt) :
    1 ≤ mt.planes.length
    ∧ ∀ k, k < mt.planes.length →
        ((mt.planes.getD k default).deflections.isSome
          = decide (k < mt.planes.length - 1))
        ∧ ∀ v i, v < img.length → i < (img.getD v []).length →
            collAt (mt.planes.getD k default).coordinatesCollection v i
              = collAt img v i
                - ((List.range k).map (fun p =>
                    mt.geometry.scalingFactorVal p k
                      • collAt ((mt.planes.getD p default).deflections.getD [])
                          v i)).sum := by
  unfold RayTracing.multiTracerInit at h
  cases hgi : RayTracing.tracerGeometryInit
      (RayTracing.planesRedshiftOrderOf galaxies) cosmo with
  | error e =>
      rw [hgi, except_bind_error] at h
      exact Except.noConfusion h
  | ok geom =>
      rw [hgi] at h
      simp only [except_bind_ok] at h
      obtain ⟨hred, hfp, hzslen⟩ :=
        RayTracing.tracerGeometryInit_ok_props _ cosmo geom hgi
      obtain ⟨planes, hbp, hplen, hprops⟩ :=
        RayTracing.buildPlanes_ok geom (RayTracing.planesGalaxiesOf galaxies)
          (RayTracing.planesRedshiftOrderOf galaxies).length img
          (by rw [hred]) hfp hzslen
          (by simp [RayTracing.planesGalaxiesOf])
          (RayTracing.planesRedshiftOrderOf galaxies).length (le_refl _)
      rw [hbp] at h
      simp only [except_bind_ok] at h
      have hmt := Except.ok.inj h
      have hp2 : mt.planes = planes := by rw [← hmt]
      have hg2 : mt.geometry = geom := by rw [← hmt]
      constructor
      · rw [hp2, hplen]
        exact hzslen
      · intro k hk
        rw [hp2, hplen] at hk
        obtain ⟨h1, _, _, h4⟩ := hprops k hk
        constructor
        · rw [hp2, hplen]
          exact h1
        · intro v i hv hi
          rw [hp2, hg2]
          exact h4 v i hv hi

/-- C1. In `MultiTracer` construction, the grid bundle of every plane `k` is
the original input grid minus the sum, over every prior plane `p < k`, of
plane `p`'s deflection field rescaled by `scaling_factor(p, k)` — the
recurrence restarts from the original input grid at every later plane and
subtracts all prior scaled deflections cumulatively. -/
theorem multi_tracer_cumulative_recurrence :
    ∀ (galaxies : List RayTracing.Galaxy) (img : Collection)
      (cosmo : RayTracing.Cosmology) (mt : RayTracing.MultiTracer),
      RayTracing.multiTracerInit galaxies img cosmo = .ok mt →
      ∀ k v i, k < mt.planes.length → v < img.length →
        i < (img.getD v []).length →
        mt.planeGridAt k v i
          = collAt img v i
            - ∑ p ∈ Finset.range k, mt.geometry.scalingFactorVal p k
                • mt.deflectionAt p v i := by
  intro galaxies img cosmo mt h k v i hk hv hi
  obtain ⟨_, hprops⟩ := RayTracing.multiTracerInit_ok_props galaxies img cosmo mt h
  have h4 := (hprops k hk).2 v i hv hi
  unfold RayTracing.MultiTracer.planeGridAt RayTracing.MultiTracer.deflectionAt
  rw [h4, sum_finset_range_eq_list]

/-- Witness for C1 at the concrete three-plane tracer `mtEx`, plane 2. -/
theorem multi_tracer_cumulative_recurrence_witness :
    mtEx.planeGridAt 2 0 0
      = collAt exImg 0 0
        - ∑ p ∈ Finset.range 2, mtEx.geometry.scalingFactorVal p 2
            • mtEx.deflectionAt p 0 0 :=
  multi_tracer_cumulative_recurrence exGalaxies exImg exCosmo mtEx rfl 2 0 0
    (by decide) (by decide) (by decide)

/-- C5. The two-plane `Tracer` computes deflections for its image plane and
never for its source plane; a `MultiTracer` computes deflections for plane `k`
exactly when `k` is not the final (highest-redshift) plane index. -/
theorem final_plane_no_deflections :
    (∀ (lensGalaxies sourceGalaxies : List RayTracing.Galaxy) (grids : Collection),
      (RayTracing.tracerInit lensGalaxies sourceGalaxies grids).imagePlane.deflections.isSome
          = true
      ∧ (RayTracing.tracerInit lensGalaxies sourceGalaxies grids).sourcePlane.deflections
          = none)
    ∧ ∀ (galaxies : List RayTracing.Galaxy) (img : Collection)
        (cosmo : RayTracing.Cosmology) (mt : RayTracing.MultiTracer),
        RayTracing.multiTracerInit galaxies img cosmo = .ok mt →
        1 ≤ mt.planes.length
        ∧ ∀ k, k < mt.planes.length →
            ((mt.planes.getD k default).deflections.isSome = true
              ↔ k < mt.planes.length - 1) := by
  constructor
  · exact fun _ _ _ => ⟨rfl, rfl⟩
  · intro galaxies img cosmo mt h
    obtain ⟨hlen, hprops⟩ :=
      RayTracing.multiTracerInit_ok_props galaxies img cosmo mt h
    refine ⟨hlen, fun k hk => ?_⟩
    rw [(hprops k hk).1]
    exact decide_eq_true_iff

/-- Witness for C5 at a concrete two-plane tracer and the three-plane `mtEx`. -/
theorem final_plane_no_deflections_witness :
    ((RayTracing.tracerInit [exGalaxyA] [exGalaxyB] exImg).imagePlane.deflections.isSome
        = true
      ∧ (RayTracing.tracerInit [exGalaxyA] [exGalaxyB] exImg).sourcePlane.deflections
        = none)
    ∧ (1 ≤ mtEx.planes.length
      ∧ ∀ k, k < mtEx.planes.length →
          ((mtEx.planes.getD k default).deflections.isSome = true
            ↔ k < mtEx.planes.length - 1)) :=
  ⟨final_plane_no_deflections.1 [exGalaxyA] [exGalaxyB] exImg,
   final_plane_no_deflections.2 exGalaxies exImg exCosmo mtEx rfl⟩
